import Mathlib

/-!
Verification of the snitun multiplexer channel (`snitun/multiplexer/channel.py`)
and the peer lifecycle described in the specification.

Bytes are modelled as lists of naturals; `asyncio.Queue` is modelled as a
bounded FIFO list together with its `maxsize`.  Coroutine methods are modelled
as pure state transitions: a call that would suspend on a full (or empty)
queue is represented by an explicit `suspended` / `blocked` outcome.
-/

namespace Snitun

/-- A byte string, modelled as a list of byte values. -/
abbrev Bytes := List Nat

/-- Modelled from the spec: flow-type constant `NEW = 0x01` from the message
module (`snitun/multiplexer/message.py`, not among the sources). -/
def CHANNEL_FLOW_NEW : Nat := 0x01

/-- Modelled from the spec: flow-type constant `DATA = 0x02`. -/
def CHANNEL_FLOW_DATA : Nat := 0x02

/-- Modelled from the spec: flow-type constant `CLOSE = 0x04`. -/
def CHANNEL_FLOW_CLOSE : Nat := 0x04

/-- Modelled from the spec: flow-type constant `PING = 0x08`. -/
def CHANNEL_FLOW_PING : Nat := 0x08

/-- Modelled from the spec: a `MultiplexerMessage` is a logical frame carrying
a channel id, a flow type and a payload; the payload defaults to empty
(`snitun/multiplexer/message.py` is not among the sources, but
`channel.py` constructs `MultiplexerMessage(id, flow)` with no data for
NEW/CLOSE and `MultiplexerMessage(id, DATA, data)` for writes). -/
structure MultiplexerMessage where
  channel_id : Nat
  flow_type : Nat
  data : Bytes := []
deriving DecidableEq

/-- `asyncio.Queue`: a bounded FIFO.  `maxsize = 0` means unbounded. -/
structure Queue (α : Type) where
  maxsize : Nat
  items : List α
deriving DecidableEq

/-- `asyncio.Queue.full()`: true iff the queue is bounded and holds at least
`maxsize` items. -/
def Queue.full {α : Type} (q : Queue α) : Bool :=
  decide (0 < q.maxsize) && decide (q.maxsize ≤ q.items.length)

/-- The effect of a completed `asyncio.Queue.put` (a put that found space;
a put on a full bounded queue suspends instead). -/
def Queue.put {α : Type} (q : Queue α) (x : α) : Queue α :=
  { q with items := q.items ++ [x] }

/-- `asyncio.Queue.get`: dequeue the front item, or `none` when the queue is
empty (in which case the coroutine would suspend). -/
def Queue.get? {α : Type} (q : Queue α) : Option (α × Queue α) :=
  match q.items with
  | [] => none
  | x :: xs => some (x, { q with items := xs })

/-- `MultiplexerChannel` state: the bounded inbound queue `_input`, the
reference to the multiplexer's outbound queue `_output`, and the id `_id`. -/
structure MultiplexerChannel where
  _input : Queue MultiplexerMessage
  _output : Queue MultiplexerMessage
  _id : Nat
deriving DecidableEq

namespace MultiplexerChannel

/-- `MultiplexerChannel.__init__`: `self._input = asyncio.Queue(2)`,
`self._output = output`, `self._id = uuid.uuid4()` (the fresh uuid is a
parameter of the model). -/
def init (output : Queue MultiplexerMessage) (id : Nat) : MultiplexerChannel :=
  { _input := { maxsize := 2, items := [] }, _output := output, _id := id }

/-- Outcome of one call to the coroutine `write`. -/
inductive WriteResult
  | completed (ch : MultiplexerChannel)
  | suspended
deriving DecidableEq

/-- `MultiplexerChannel.write`: build `MultiplexerMessage(self._id,
CHANNEL_FLOW_DATA, data)` and `await self._output.put(message)`; the put
suspends while the outbound queue is full. -/
def write (ch : MultiplexerChannel) (data : Bytes) : WriteResult :=
  let message : MultiplexerMessage :=
    { channel_id := ch._id, flow_type := CHANNEL_FLOW_DATA, data := data }
  if ch._output.full then
    WriteResult.suspended
  else
    WriteResult.completed { ch with _output := ch._output.put message }

/-- Outcome of one call to the coroutine `read`. -/
inductive ReadResult
  | data (payload : Bytes) (ch : MultiplexerChannel)
  | transportClose (ch : MultiplexerChannel)
  | blocked
deriving DecidableEq

/-- `MultiplexerChannel.read`: `message = await self._input.get()`; if
`message.flow_type == CHANNEL_FLOW_DATA` return `message.data`, otherwise
raise `MultiplexerTransportClose`. -/
def read (ch : MultiplexerChannel) : ReadResult :=
  match ch._input.get? with
  | none => ReadResult.blocked
  | some (message, input) =>
    if message.flow_type = CHANNEL_FLOW_DATA then
      ReadResult.data message.data { ch with _input := input }
    else
      ReadResult.transportClose { ch with _input := input }

/-- `MultiplexerChannel.init_close`: return
`MultiplexerMessage(self._id, CHANNEL_FLOW_CLOSE)`; the channel state is
passed through unchanged. -/
def init_close (ch : MultiplexerChannel) : MultiplexerMessage × MultiplexerChannel :=
  ({ channel_id := ch._id, flow_type := CHANNEL_FLOW_CLOSE }, ch)

/-- `MultiplexerChannel.init_new`: return
`MultiplexerMessage(self._id, CHANNEL_FLOW_NEW)`; the channel state is
passed through unchanged. -/
def init_new (ch : MultiplexerChannel) : MultiplexerMessage × MultiplexerChannel :=
  ({ channel_id := ch._id, flow_type := CHANNEL_FLOW_NEW }, ch)

/-- `MultiplexerChannel.message_transport`: if `self._input.full()` log a
warning and return (the message is dropped); otherwise
`await self._input.put(message)` — a put that found space, so it never
suspends. -/
def message_transport (ch : MultiplexerChannel) (message : MultiplexerMessage) :
    MultiplexerChannel :=
  if ch._input.full then
    ch
  else
    { ch with _input := ch._input.put message }

/-- The operations a caller or the multiplexer core can perform on a channel. -/
inductive ChannelOp
  | write (data : Bytes)
  | read
  | init_close
  | init_new
  | message_transport (message : MultiplexerMessage)
deriving DecidableEq

/-- The channel state after one operation (a suspended or blocked call leaves
the state unchanged). -/
def step (ch : MultiplexerChannel) (op : ChannelOp) : MultiplexerChannel :=
  match op with
  | ChannelOp.write data =>
    match ch.write data with
    | WriteResult.completed ch' => ch'
    | WriteResult.suspended => ch
  | ChannelOp.read =>
    match ch.read with
    | ReadResult.data _ ch' => ch'
    | ReadResult.transportClose ch' => ch'
    | ReadResult.blocked => ch
  | ChannelOp.init_close => ch.init_close.2
  | ChannelOp.init_new => ch.init_new.2
  | ChannelOp.message_transport message => ch.message_transport message

end MultiplexerChannel

/-- Modelled from the spec: the part of the `Multiplexer` the peer handshake
determines (`snitun/multiplexer/core.py` is not among the sources) — the
optional throttle interval `_throttling`, in seconds per byte. -/
structure Multiplexer where
  _throttling : Option ℚ
deriving DecidableEq

/-- Modelled from the spec: the peer states
`Pending → Authenticating → Ready → Disconnected`. -/
inductive PeerState
  | pending
  | authenticating
  | ready
  | disconnected
deriving DecidableEq

/-- Errors raised by the peer operations: `RuntimeError` for the usage error
of `wait_disconnect` before Ready, `SniTunChallengeError` for a failed
challenge. -/
inductive PeerError
  | runtimeError
  | challengeError
deriving DecidableEq

/-- Modelled from the spec: a `Peer` (`snitun/server/peer.py` is not among the
sources) holds hostname, optional alias, `valid_until` timestamp, AES key and
iv, protocol version, optional throttling byte-rate, and, once authenticated,
a `Multiplexer`.  Timestamps are integers (UNIX seconds). -/
structure Peer where
  hostname : String
  valid_until : Int
  aes_key : Bytes
  aes_iv : Bytes
  protocol_version : Nat
  peerAlias : Option String := none
  throttling : Option Nat := none
  multiplexer : Option Multiplexer := none
  state : PeerState := PeerState.pending
deriving DecidableEq

namespace Peer

/-- Modelled from the spec: `is_valid` iff now < `valid_until`. -/
def is_valid (peer : Peer) (now : Int) : Bool :=
  decide (now < peer.valid_until)

/-- Modelled from the spec: `is_ready` iff the state is Ready. -/
def is_ready (peer : Peer) : Bool :=
  decide (peer.state = PeerState.ready)

/-- Modelled from the spec: `wait_disconnect` is only callable after Ready;
invoking it before signals a usage error (`RuntimeError` in the tests).
After Ready it awaits the multiplexer's disconnect future, modelled as a
successful return. -/
def wait_disconnect (peer : Peer) : Except PeerError Unit :=
  if peer.is_ready then
    Except.ok ()
  else
    Except.error PeerError.runtimeError

/-- Modelled from the spec: the server side of `init_multiplexer_challenge`,
seen after decryption.  The server generates a random `token`, sends it
encrypted, and compares the decrypted 32-byte `answer` with SHA-256 of the
token (SHA-256 is abstracted as the `hash` argument).  On mismatch the
handshake fails with `ChallengeError` and the peer is untouched; on match the
peer gets a `Multiplexer` whose `_throttling` is the reciprocal of the
configured byte rate (`none` when no throttling is configured) and
transitions to Ready. -/
def init_multiplexer_challenge (peer : Peer) (hash : Bytes → Bytes)
    (token answer : Bytes) : Except PeerError Peer :=
  if answer = hash token then
    Except.ok
      { peer with
        multiplexer :=
          some { _throttling := peer.throttling.map (fun rate => (1 : ℚ) / rate) },
        state := PeerState.ready }
  else
    Except.error PeerError.challengeError

end Peer

/-- A concrete DATA message, used to build witness states. -/
def msgData (id : Nat) (data : Bytes) : MultiplexerMessage :=
  { channel_id := id, flow_type := CHANNEL_FLOW_DATA, data := data }

/-- A concrete dataless message of the given flow type, used to build witness
states. -/
def msgFlow (id flow : Nat) : MultiplexerMessage :=
  { channel_id := id, flow_type := flow }

/-- A concrete channel state, used to build witness states: inbound queue of
capacity 2 as the constructor makes it, outbound queue of the given capacity
and content. -/
def testChannel (inputItems : List MultiplexerMessage) (outMax : Nat)
    (outItems : List MultiplexerMessage) (id : Nat) : MultiplexerChannel :=
  { _input := { maxsize := 2, items := inputItems },
    _output := { maxsize := outMax, items := outItems },
    _id := id }

/-! ## Theorems about the claims -/

/-- C1: `Channel.read` dequeues the next inbound message; if its flow type is
DATA it returns the message's payload bytes, and if its flow type is CLOSE it
raises `TransportClose`, terminal for this channel. -/
theorem channel_read_data_or_close (ch : MultiplexerChannel)
    (message : MultiplexerMessage) (rest : List MultiplexerMessage)
    (hq : ch._input.items = message :: rest) :
    (message.flow_type = CHANNEL_FLOW_DATA →
      ch.read = MultiplexerChannel.ReadResult.data message.data
        { ch with _input := { ch._input with items := rest } }) ∧
    (message.flow_type = CHANNEL_FLOW_CLOSE →
      ch.read = MultiplexerChannel.ReadResult.transportClose
        { ch with _input := { ch._input with items := rest } }) := by
  constructor
  · intro hdata
    simp [MultiplexerChannel.read, Queue.get?, hq, hdata]
  · intro hclose
    simp [MultiplexerChannel.read, Queue.get?, hq, hclose,
      CHANNEL_FLOW_CLOSE, CHANNEL_FLOW_DATA]

/-- Witness for C1 on a concrete channel: a queued DATA frame is returned as
its payload and a queued CLOSE frame raises `TransportClose`. -/
theorem channel_read_data_or_close_witness :
    (testChannel [msgData 7 [104, 105]] 8 [] 7).read =
      MultiplexerChannel.ReadResult.data [104, 105] (testChannel [] 8 [] 7) ∧
    (testChannel [msgFlow 9 CHANNEL_FLOW_CLOSE] 8 [] 9).read =
      MultiplexerChannel.ReadResult.transportClose (testChannel [] 8 [] 9) := by
  constructor
  · exact (channel_read_data_or_close (testChannel [msgData 7 [104, 105]] 8 [] 7)
      (msgData 7 [104, 105]) [] rfl).1 rfl
  · exact (channel_read_data_or_close (testChannel [msgFlow 9 CHANNEL_FLOW_CLOSE] 8 [] 9)
      (msgFlow 9 CHANNEL_FLOW_CLOSE) [] rfl).2 rfl

/-- C2: `message_transport` drops the inbound message when the channel's
inbound queue is full, returning without modifying the state, and enqueues it
on the inbound queue otherwise; in the model it always completes in one step,
so it never blocks. -/
theorem channel_message_transport_drop_or_enqueue (ch : MultiplexerChannel)
    (message : MultiplexerMessage) :
    (ch._input.full = true → ch.message_transport message = ch) ∧
    (ch._input.full = false →
      ch.message_transport message =
        { ch with _input := ch._input.put message }) := by
  constructor <;> intro h <;>
    simp [MultiplexerChannel.message_transport, h]

/-- Witness for C2 on concrete channels: a full inbound queue drops the
message, a non-full one enqueues it. -/
theorem channel_message_transport_drop_or_enqueue_witness :
    (testChannel [msgData 1 [0], msgData 1 [1]] 8 [] 1).message_transport (msgData 1 [2]) =
      testChannel [msgData 1 [0], msgData 1 [1]] 8 [] 1 ∧
    (testChannel [] 8 [] 2).message_transport (msgData 2 [3]) =
      testChannel [msgData 2 [3]] 8 [] 2 := by
  constructor
  · exact (channel_message_transport_drop_or_enqueue _ _).1 (by decide)
  · exact (channel_message_transport_drop_or_enqueue _ _).2 (by decide)

/-- C3: `Channel.write d` enqueues exactly one message on the multiplexer's
outbound queue — carrying this channel's id, flow type DATA and payload `d`,
with everything else unchanged — and suspends when the outbound queue is
full, enqueueing nothing. -/
theorem channel_write_enqueues_data (ch : MultiplexerChannel) (data : Bytes) :
    (ch._output.full = false →
      ch.write data = MultiplexerChannel.WriteResult.completed
        { ch with _output := ch._output.put { channel_id := ch._id, flow_type := CHANNEL_FLOW_DATA, data := data } }) ∧
    (ch._output.full = true →
      ch.write data = MultiplexerChannel.WriteResult.suspended) := by
  constructor <;> intro h <;>
    simp [MultiplexerChannel.write, h]

/-- Witness for C3 on concrete channels: a non-full outbound queue receives
exactly the DATA message, a full one suspends the write. -/
theorem channel_write_enqueues_data_witness :
    (testChannel [] 8 [] 5).write [42] =
      MultiplexerChannel.WriteResult.completed (testChannel [] 8 [msgData 5 [42]] 5) ∧
    (testChannel [] 1 [msgData 6 [0]] 6).write [43] =
      MultiplexerChannel.WriteResult.suspended := by
  constructor
  · exact (channel_write_enqueues_data _ _).1 (by decide)
  · exact (channel_write_enqueues_data _ _).2 (by decide)

/-- C4: `init_close` returns a message with this channel's id, flow type
CLOSE and empty data, `init_new` one with flow type NEW and empty data, and
neither changes the channel's state or enqueues anything. -/
theorem channel_init_close_init_new (ch : MultiplexerChannel) :
    ch.init_close =
      ({ channel_id := ch._id, flow_type := CHANNEL_FLOW_CLOSE, data := [] }, ch) ∧
    ch.init_new =
      ({ channel_id := ch._id, flow_type := CHANNEL_FLOW_NEW, data := [] }, ch) :=
  ⟨rfl, rfl⟩

/-- C5: the constructor creates the inbound queue with capacity exactly 2 and
empty, and no channel operation makes an inbound queue of capacity 2 hold
more than 2 messages (the capacity and the bound are preserved by every
operation). -/
theorem channel_inbound_queue_capacity_two (output : Queue MultiplexerMessage)
    (id : Nat) (ch : MultiplexerChannel) (op : MultiplexerChannel.ChannelOp)
    (hmax : ch._input.maxsize = 2) (hlen : ch._input.items.length ≤ 2) :
    (MultiplexerChannel.init output id)._input.maxsize = 2 ∧
    (MultiplexerChannel.init output id)._input.items.length = 0 ∧
    (ch.step op)._input.maxsize = 2 ∧
    (ch.step op)._input.items.length ≤ 2 := by
  refine ⟨rfl, rfl, ?_⟩
  cases op with
  | write data =>
    by_cases hfull : ch._output.full = true
    · simp [MultiplexerChannel.step, MultiplexerChannel.write, hfull, hmax, hlen]
    · simp only [Bool.not_eq_true] at hfull
      simp [MultiplexerChannel.step, MultiplexerChannel.write, hfull, hmax, hlen]
  | read =>
    cases hitems : ch._input.items with
    | nil =>
      simp [MultiplexerChannel.step, MultiplexerChannel.read, Queue.get?, hitems, hmax, hlen]
    | cons message rest =>
      have hr : rest.length ≤ 2 := by
        have h := hlen
        rw [hitems] at h
        simp only [List.length_cons] at h
        omega
      by_cases hd : message.flow_type = CHANNEL_FLOW_DATA
      · simp [MultiplexerChannel.step, MultiplexerChannel.read, Queue.get?, hitems, hd, hmax, hr]
      · simp [MultiplexerChannel.step, MultiplexerChannel.read, Queue.get?, hitems, hd, hmax, hr]
  | init_close =>
    exact ⟨hmax, hlen⟩
  | init_new =>
    exact ⟨hmax, hlen⟩
  | message_transport message =>
    by_cases hfull : ch._input.full = true
    · simp [MultiplexerChannel.step, MultiplexerChannel.message_transport, hfull, hmax, hlen]
    · have hlt : ch._input.items.length < 2 := by
        simp only [Bool.not_eq_true, Queue.full, hmax] at hfull
        simp only [Bool.and_eq_false_iff, decide_eq_false_iff_not, not_le, not_lt] at hfull
        omega
      simp only [Bool.not_eq_true] at hfull
      simp only [MultiplexerChannel.step, MultiplexerChannel.message_transport, hfull,
        Bool.false_eq_true, if_false, Queue.put, List.length_append, List.length_cons,
        List.length_nil]
      exact ⟨hmax, by omega⟩

/-- Witness for C5 on a concrete state: a freshly constructed channel has an
empty inbound queue of capacity 2, and delivering a message to a channel
whose inbound queue already holds 2 messages keeps the bound. -/
theorem channel_inbound_queue_capacity_two_witness :
    (MultiplexerChannel.init { maxsize := 8, items := [] } 3)._input.maxsize = 2 ∧
    (MultiplexerChannel.init { maxsize := 8, items := [] } 3)._input.items.length = 0 ∧
    ((testChannel [msgData 3 [1], msgData 3 [2]] 8 [] 3).step
      (MultiplexerChannel.ChannelOp.message_transport (msgData 3 [4])))._input.maxsize = 2 ∧
    ((testChannel [msgData 3 [1], msgData 3 [2]] 8 [] 3).step
      (MultiplexerChannel.ChannelOp.message_transport (msgData 3 [4])))._input.items.length ≤ 2 :=
  channel_inbound_queue_capacity_two { maxsize := 8, items := [] } 3
    (testChannel [msgData 3 [1], msgData 3 [2]] 8 [] 3)
    (MultiplexerChannel.ChannelOp.message_transport (msgData 3 [4])) rfl (by decide)

/-- C6: `Channel.read` raises `TransportClose` for every dequeued inbound
message whose flow type is not DATA — NEW and PING included — exactly as for
a CLOSE. -/
theorem channel_read_non_data_raises_close (ch : MultiplexerChannel)
    (message : MultiplexerMessage) (rest : List MultiplexerMessage)
    (hq : ch._input.items = message :: rest)
    (hne : message.flow_type ≠ CHANNEL_FLOW_DATA) :
    ch.read = MultiplexerChannel.ReadResult.transportClose
      { ch with _input := { ch._input with items := rest } } := by
  simp [MultiplexerChannel.read, Queue.get?, hq, hne]

/-- Witness for C6 on concrete channels: a queued NEW frame and a queued PING
frame each terminate the read with `TransportClose`. -/
theorem channel_read_non_data_raises_close_witness :
    (testChannel [msgFlow 11 CHANNEL_FLOW_NEW] 8 [] 11).read =
      MultiplexerChannel.ReadResult.transportClose (testChannel [] 8 [] 11) ∧
    (testChannel [msgFlow 12 CHANNEL_FLOW_PING] 8 [] 12).read =
      MultiplexerChannel.ReadResult.transportClose (testChannel [] 8 [] 12) := by
  constructor
  · exact channel_read_non_data_raises_close (testChannel [msgFlow 11 CHANNEL_FLOW_NEW] 8 [] 11)
      (msgFlow 11 CHANNEL_FLOW_NEW) [] rfl (by decide)
  · exact channel_read_non_data_raises_close (testChannel [msgFlow 12 CHANNEL_FLOW_PING] 8 [] 12)
      (msgFlow 12 CHANNEL_FLOW_PING) [] rfl (by decide)

/-- C7: when the decrypted challenge reply differs from the hash of the
challenge token, `init_multiplexer_challenge` fails with `ChallengeError` and
the peer — untouched by the failure — remains not ready. -/
theorem peer_challenge_mismatch_error (peer : Peer) (hash : Bytes → Bytes)
    (token answer : Bytes) (hne : answer ≠ hash token)
    (hnr : peer.is_ready = false) :
    peer.init_multiplexer_challenge hash token answer =
      Except.error PeerError.challengeError ∧ peer.is_ready = false :=
  ⟨by simp [Peer.init_multiplexer_challenge, hne], hnr⟩

/-- Witness for C7 on a concrete peer: echoing the token itself instead of
its hash fails the challenge and leaves the peer not ready. -/
theorem peer_challenge_mismatch_error_witness :
    Peer.init_multiplexer_challenge
      { hostname := "localhost", valid_until := 100, aes_key := [], aes_iv := [],
        protocol_version := 1 }
      (fun b => 0 :: b) [7] [7] =
      Except.error PeerError.challengeError ∧
    Peer.is_ready
      { hostname := "localhost", valid_until := 100, aes_key := [], aes_iv := [],
        protocol_version := 1 } = false :=
  peer_challenge_mismatch_error
    { hostname := "localhost", valid_until := 100, aes_key := [], aes_iv := [],
      protocol_version := 1 }
    (fun b => 0 :: b) [7] [7] (by decide) (by decide)

/-- C8: calling `wait_disconnect` on a peer that has not reached the Ready
state fails with the usage error (`RuntimeError`) instead of suspending or
returning. -/
theorem peer_wait_disconnect_before_ready (peer : Peer)
    (hnr : peer.is_ready = false) :
    peer.wait_disconnect = Except.error PeerError.runtimeError := by
  simp [Peer.wait_disconnect, hnr]

/-- Witness for C8 on a concrete freshly constructed peer. -/
theorem peer_wait_disconnect_before_ready_witness :
    Peer.wait_disconnect
      { hostname := "localhost", valid_until := 100, aes_key := [], aes_iv := [],
        protocol_version := 1 } = Except.error PeerError.runtimeError :=
  peer_wait_disconnect_before_ready
    { hostname := "localhost", valid_until := 100, aes_key := [], aes_iv := [],
      protocol_version := 1 } (by decide)

/-- C9: `is_valid` is true exactly when the current time is strictly before
`valid_until`; in particular it is false whenever now ≥ `valid_until`. -/
theorem peer_is_valid_iff (peer : Peer) (now : Int) :
    (peer.is_valid now = true ↔ now < peer.valid_until) ∧
    (peer.valid_until ≤ now → peer.is_valid now = false) := by
  constructor
  · simp [Peer.is_valid]
  · intro h
    simp [Peer.is_valid]
    omega

/-- Witness for C9 on a concrete peer: valid strictly before the deadline,
invalid at it. -/
theorem peer_is_valid_iff_witness :
    (Peer.is_valid
      { hostname := "localhost", valid_until := 10, aes_key := [], aes_iv := [],
        protocol_version := 1 } 5 = true ↔ (5 : Int) < 10) ∧
    ((10 : Int) ≤ 10 → Peer.is_valid
      { hostname := "localhost", valid_until := 10, aes_key := [], aes_iv := [],
        protocol_version := 1 } 10 = false) := by
  constructor
  · exact (peer_is_valid_iff
      { hostname := "localhost", valid_until := 10, aes_key := [], aes_iv := [],
        protocol_version := 1 } 5).1
  · exact (peer_is_valid_iff
      { hostname := "localhost", valid_until := 10, aes_key := [], aes_iv := [],
        protocol_version := 1 } 10).2

/-- C10: after a successful challenge, a peer configured with throttling 500
bytes per second gets a multiplexer whose `_throttling` is exactly 0.002
seconds per byte (the reciprocal of the byte rate), and a peer with no
throttling configured gets a multiplexer whose `_throttling` is `none`. -/
theorem peer_throttling_interval (peer : Peer) (hash : Bytes → Bytes)
    (token : Bytes) :
    (peer.throttling = some 500 →
      peer.init_multiplexer_challenge hash token (hash token) =
        Except.ok { peer with
          multiplexer := some { _throttling := some (0.002 : ℚ) },
          state := PeerState.ready }) ∧
    (peer.throttling = none →
      peer.init_multiplexer_challenge hash token (hash token) =
        Except.ok { peer with
          multiplexer := some { _throttling := none },
          state := PeerState.ready }) := by
  constructor
  · intro h
    simp [Peer.init_multiplexer_challenge, h]
    norm_num
  · intro h
    simp [Peer.init_multiplexer_challenge, h]

/-- Witness for C10 on concrete peers: throttling 500 yields the interval
0.002 seconds per byte, no throttling yields none. -/
theorem peer_throttling_interval_witness :
    Peer.init_multiplexer_challenge
      { hostname := "localhost", valid_until := 100, aes_key := [], aes_iv := [],
        protocol_version := 1, throttling := some 500 }
      (fun b => b) [] ((fun b => b) []) =
      Except.ok
        { hostname := "localhost", valid_until := 100, aes_key := [], aes_iv := [],
          protocol_version := 1, throttling := some 500,
          multiplexer := some { _throttling := some (0.002 : ℚ) },
          state := PeerState.ready } ∧
    Peer.init_multiplexer_challenge
      { hostname := "localhost", valid_until := 100, aes_key := [], aes_iv := [],
        protocol_version := 1 }
      (fun b => b) [] ((fun b => b) []) =
      Except.ok
        { hostname := "localhost", valid_until := 100, aes_key := [], aes_iv := [],
          protocol_version := 1,
          multiplexer := some { _throttling := none },
          state := PeerState.ready } := by
  constructor
  · exact (peer_throttling_interval
      { hostname := "localhost", valid_until := 100, aes_key := [], aes_iv := [],
        protocol_version := 1, throttling := some 500 } (fun b => b) []).1 rfl
  · exact (peer_throttling_interval
      { hostname := "localhost", valid_until := 100, aes_key := [], aes_iv := [],
        protocol_version := 1 } (fun b => b) []).2 rfl

end Snitun
